import Mathlib

/-!
Shallow embedding of the collectsphere metrics-collection engine
(`collectsphere.py`) and proofs about its claimed properties.

Python strings are embedded as `String` / `List Char`; the module-level
regular expressions of the source are embedded as executable matchers that
reproduce the anchored, case-insensitive, backtracking behaviour of the
specific patterns appearing in the source (greedy groups try the longest
split first, the any-character metacharacter does not match a newline, and
the end anchor also matches just before a single trailing newline).
-/

/-- Newline character; the regex any-character class of the source patterns
does not match it. -/
def nlChar : Char := '\x0a'

/-- Embeds the Python `lower()` method on a string given as a character
list. -/
def lowerL (l : List Char) : List Char := l.map Char.toLower

/-- Embeds the Python slice `l[-n:]`: the last `n` characters (the whole
list when it is shorter than `n`). -/
def lastN (n : Nat) (l : List Char) : List Char := l.drop (l.length - n)

/-- Embeds `re.match('(naa|t10)\.(.+)', str, re.IGNORECASE)` from
`truncate` (collectsphere.py:255).  On success it returns the lower-cased
group 1 (`id_type.lower()` is applied immediately in the source) and the
raw group 2 (everything after the dot up to a newline, required
non-empty). -/
def naaT10Match (s : List Char) : Option (List Char × List Char) :=
  match s with
  | t1 :: t2 :: t3 :: t4 :: rest =>
    if ([t1, t2, t3].map Char.toLower = ['n', 'a', 'a'] ∨
        [t1, t2, t3].map Char.toLower = ['t', '1', '0']) ∧ t4 = '.' then
      let g2 := rest.takeWhile (fun c => c != nlChar)
      if g2 = [] then none else some ([t1, t2, t3].map Char.toLower, g2)
    else none
  | _ => none

/-- Embeds the NAA/T10 canonical-name block of `truncate`
(collectsphere.py:254-263).  Note two facts of the source reproduced here:
`identifier` is the result of `.lower()`, so the subsequent case-sensitive
`identifier.startswith('ATA')` test compares against a lower-cased string;
and inside that branch only the local variable `identifier` is reassigned
(`str` is never written), so when the branch is taken the block leaves the
string unchanged. -/
def deviceIdRuleL (s : List Char) : List Char :=
  match naaT10Match s with
  | none => s
  | some (idType, g2) =>
    let identifier := lowerL g2
    if identifier.take 3 = ['A', 'T', 'A'] then
      s
    else
      idType ++ lastN 12 identifier

/-- The NAA/T10 device-identifier rule of `truncate` on `String`. -/
def deviceIdRule (s : String) : String := String.mk (deviceIdRuleL s.data)

/-- Embeds the Python regex class `[0-9a-f]` under `re.IGNORECASE`. -/
def isPyHexDigit (c : Char) : Bool :=
  c.isDigit || (decide ('a' ≤ c.toLower) && decide (c.toLower ≤ 'f'))

/-- Embeds the Python regex class `\s` for byte strings:
space, tab, newline, carriage return, form feed, vertical tab. -/
def isPySpace (c : Char) : Bool :=
  c = ' ' || c = '\x09' || c = '\x0a' || c = '\x0d' || c = '\x0c' || c = '\x0b'

/-- Consume exactly `n` hex digits, returning the remaining input. -/
def consumeHex : Nat → List Char → Option (List Char)
  | 0, l => some l
  | n + 1, c :: rest => if isPyHexDigit c then consumeHex n rest else none
  | _ + 1, [] => none

/-- Consume exactly the character `ch`, returning the remaining input. -/
def consumeChar (ch : Char) : List Char → Option (List Char)
  | c :: rest => if c = ch then some rest else none
  | [] => none

/-- Embeds a trailing `(.*)$` group applied to the whole remaining input
`l`: the group is `l` itself when `l` is newline-free, or `l` without its
final newline when that is the only newline; otherwise the match fails. -/
def dollarTail (l : List Char) : Option (List Char) :=
  if l.all (fun c => c != nlChar) then some l
  else if l.getLast? = some nlChar ∧ l.dropLast.all (fun c => c != nlChar) then
    some l.dropLast
  else none

/-- After the opening parenthesis of the vCloud-Director pattern
(collectsphere.py:266): an 8-4-4-4-12 hex UUID followed by a closing
parenthesis.  Returns the 36 UUID characters and the rest of the input. -/
def vcdAfterParen (l : List Char) : Option (List Char × List Char) := do
  let r1 ← consumeHex 8 l
  let r2 ← consumeChar '-' r1
  let r3 ← consumeHex 4 r2
  let r4 ← consumeChar '-' r3
  let r5 ← consumeHex 4 r4
  let r6 ← consumeChar '-' r5
  let r7 ← consumeHex 4 r6
  let r8 ← consumeChar '-' r7
  let r9 ← consumeHex 12 r8
  let r10 ← consumeChar ')' r9
  pure (l.take 36, r10)

/-- One candidate split of the vCloud-Director pattern
`^(.*)\s\(([UUID])\)(.*)$` at position `i` of the greedy first group. -/
def vcdMatchAt (s : List Char) (i : Nat) :
    Option (List Char × List Char × List Char) :=
  if (s.take i).all (fun c => c != nlChar) then
    match s.drop i with
    | c :: rest =>
      if isPySpace c then
        match consumeChar '(' rest with
        | some r =>
          match vcdAfterParen r with
          | some (uuid, tail) =>
            (dollarTail tail).map (fun g3 => (s.take i, uuid, g3))
          | none => none
        | none => none
      else none
    | [] => none
  else none

/-- Return the first `some` value of `f` over the given candidate list. -/
def firstSome {α : Type} (f : Nat → Option α) : List Nat → Option α
  | [] => none
  | i :: rest =>
    match f i with
    | some v => some v
    | none => firstSome f rest

/-- Embeds `re.match` of the vCloud-Director pattern
(collectsphere.py:266): the greedy leading group takes the longest
position at which the rest of the pattern matches. -/
def vcdMatch (s : List Char) : Option (List Char × List Char × List Char) :=
  firstSome (vcdMatchAt s) (List.range (s.length + 1)).reverse

/-- Embeds the vCloud-Director naming block of `truncate`
(collectsphere.py:265-273). -/
def vcdRuleL (s : List Char) : List Char :=
  match vcdMatch s with
  | none => s
  | some (g1, uuid, g3) =>
    (lowerL g1).take 6 ++ '-' :: ((lowerL uuid).take 6 ++ lowerL g3)

/-- The 8-8-4-12 hex UUID of the VMFS pattern (collectsphere.py:276),
returning the 35 UUID characters and the rest of the input. -/
def vmfsUuid (l : List Char) : Option (List Char × List Char) := do
  let r1 ← consumeHex 8 l
  let r2 ← consumeChar '-' r1
  let r3 ← consumeHex 8 r2
  let r4 ← consumeChar '-' r3
  let r5 ← consumeHex 4 r4
  let r6 ← consumeChar '-' r5
  let r7 ← consumeHex 12 r6
  pure (l.take 35, r7)

/-- One candidate split of the VMFS pattern `^(.*)([UUID])(.*)$` at
position `i` of the greedy first group. -/
def vmfsMatchAt (s : List Char) (i : Nat) :
    Option (List Char × List Char × List Char) :=
  if (s.take i).all (fun c => c != nlChar) then
    match vmfsUuid (s.drop i) with
    | some (uuid, tail) => (dollarTail tail).map (fun g3 => (s.take i, uuid, g3))
    | none => none
  else none

/-- Embeds `re.match` of the VMFS pattern (collectsphere.py:276). -/
def vmfsMatch (s : List Char) : Option (List Char × List Char × List Char) :=
  firstSome (vmfsMatchAt s) (List.range (s.length + 1)).reverse

/-- Embeds the VMFS-UUID block of `truncate` (collectsphere.py:275-282). -/
def vmfsRuleL (s : List Char) : List Char :=
  match vmfsMatch s with
  | none => s
  | some (g1, uuid, g3) => lowerL g1 ++ (lowerL uuid).take 12 ++ lowerL g3

/-- Embeds Python `str.replace(pat, rep)` (all non-overlapping occurrences,
left to right) with an explicit fuel argument for structural recursion;
`listReplace` below instantiates the fuel with the input length, which is
enough steps for the scan to finish. -/
def listReplaceFuel (pat rep : List Char) : Nat → List Char → List Char
  | _, [] => []
  | 0, l => l
  | fuel + 1, c :: rest =>
    if pat ≠ [] ∧ (c :: rest).take pat.length = pat then
      rep ++ listReplaceFuel pat rep fuel ((c :: rest).drop pat.length)
    else
      c :: listReplaceFuel pat rep fuel rest

/-- Embeds Python `str.replace(pat, rep)` on character lists. -/
def listReplace (pat rep s : List Char) : List Char :=
  listReplaceFuel pat rep s.length s

/-- Embeds the unit and group substitution chain of `truncate`
(collectsphere.py:284-293), in source order: millisecond, percent, number,
kiloBytesPerSecond, kiloBytes, megaBytes, datastore. -/
def unitGroupReplacements (s : List Char) : List Char :=
  let p1 := "millisecond".data
  let r1 := "ms".data
  let p2 := "percent".data
  let r2 := "perc".data
  let p3 := "number".data
  let r3 := "num".data
  let p4 := "kiloBytesPerSecond".data
  let r4 := "KBps".data
  let p5 := "kiloBytes".data
  let r5 := "KB".data
  let p6 := "megaBytes".data
  let r6 := "MB".data
  let p7 := "datastore".data
  let r7 := "ds".data
  listReplace p7 r7
    (listReplace p6 r6
      (listReplace p5 r5
        (listReplace p4 r4
          (listReplace p3 r3
            (listReplace p2 r2
              (listReplace p1 r1 s))))))

/-- Embeds the helper function `truncate` (collectsphere.py:250-295): the
device-identifier rule, the vCloud-Director rule, the VMFS-UUID rule and
the unit and group substitutions, applied in source order. -/
def truncate (s : String) : String :=
  String.mk (unitGroupReplacements (vmfsRuleL (vcdRuleL (deviceIdRuleL s.data))))

/-- Embeds the helper `FQDNtruncate` (collectsphere.py:297-304).  The
fully-qualified-domain-name regular expression of the source (line 300,
with lookahead and lookbehind assertions) is represented by an oracle
predicate `accepts` supplied as a parameter; no claim under verification
depends on its value.  When it accepts, the source keeps
`str.split(".", 1)[0]`, the part before the first dot. -/
def FQDNtruncate (accepts : String → Bool) (s : String) : String :=
  if accepts s then s.takeWhile (fun c => c != '.') else s

/-- Embeds the helper `Objtruncate` (collectsphere.py:306-314); the
`replace` calls of the source are guarded by whole-string equality, so
they amount to returning the two-letter abbreviation. -/
def Objtruncate (s : String) : String :=
  if s = "HostSystem" then "HS"
  else if s = "VirtualMachine" then "VM"
  else s

/-- Counter metadata from the control-plane catalog
(`performanceManager.perfCounter`): `key` is the opaque counter id,
`groupKey` and `nameKey` embed `groupInfo.key` and `nameInfo.key`. -/
structure PerfCounter where
  key : Nat
  groupKey : String
  nameKey : String
deriving DecidableEq, Repr

/-- Embeds the expression `perfCounter.groupInfo.key + "." +
perfCounter.nameInfo.key` (collectsphere.py:375). -/
def groupDotName (pc : PerfCounter) : String :=
  pc.groupKey ++ "." ++ pc.nameKey

/-- A queryable metric descriptor (`PerfMetricId`): counter id and
instance label.  The field `inst` embeds the source attribute named
`instance`, which is a reserved word in Lean. -/
structure MetricId where
  counterId : Nat
  inst : String
deriving DecidableEq, Repr

/-- An endpoint configuration record as assembled by `configure_callback`
(collectsphere.py:96-106). -/
structure Config where
  name : String
  host : String
  port : Nat
  verbose : Bool
  username : String
  password : String
  host_counters : List String
  vm_counters : List String
  inventory_refresh_interval : Nat
deriving DecidableEq, Repr

/-- Embeds the parsing of a `host_counters` / `vm_counters` configuration
value (collectsphere.py:73-86): the literal value `all` contributes
nothing, leaving the list empty; otherwise the value is split on commas
and every non-empty piece is appended stripped. -/
def parseCounterNames (v : String) : List String :=
  let sep := ","
  if v = "all" then []
  else ((v.splitOn sep).filter (fun m => m.length > 0)).map String.trim

/-- The control-plane world an environment build runs against.  The
connection outcome, the counter catalog, the outcome of the powered-on
probe-host and probe-VM inventory scan (collectsphere.py:379-397, of which
the claims use only whether each probe was found), the first historical
interval sampling period, and the per-period queryable metric discovery
(`QueryAvailablePerfMetric`) are inputs of the build. -/
structure VCWorld where
  connectOk : Bool
  perfCounter : List PerfCounter
  foundHost : Bool
  foundVm : Bool
  histSamplingPeriod : Nat
  availableHostMetrics : Nat → List MetricId
  availableVmMetrics : Nat → List MetricId

/-- The environment dictionary built by `create_environment`
(collectsphere.py:362-445). -/
structure Env where
  host : String
  username : String
  password : String
  lookup_host : List MetricId
  lookup_vm : List MetricId
  host_counter_ids : List MetricId
  vm_counter_ids : List MetricId
deriving DecidableEq, Repr

/-- The three possible returns of `create_environment`: `-1` on connection
failure (line 359), the implicit `None` when no powered-on probe host or
probe VM exists (lines 400, 403), or the environment dictionary. -/
inductive EnvResult where
  | minusOne
  | noneResult
  | ok (e : Env)
deriving DecidableEq, Repr

/-- Embeds the counter-id resolution of `create_environment`
(collectsphere.py:373-377): the ids of all catalog counters whose
`group.name` string is a member of the given name list. -/
def filteredCounterIdsOf (catalog : List PerfCounter) (names : List String) : List Nat :=
  (catalog.filter (fun pc => decide (groupDotName pc ∈ names))).map (fun pc => pc.key)

/-- Embeds `create_environment` (collectsphere.py:316-445).  The counter
filter is resolved against the concatenation `config['vm_counters'] +
config['host_counters']` (line 376).  `lookup_host` / `lookup_vm` are the
concatenation of the descriptors discovered at the first historical
interval's sampling period and at the fixed real-time period 20 (lines
415-419).  The per-scope allow-lists take the whole lookup list when the
scope's configured name list is empty, and otherwise the sublist whose
counter ids lie in the resolved id set (lines 424-441). -/
def create_environment (config : Config) (w : VCWorld) : EnvResult :=
  if !w.connectOk then EnvResult.minusOne
  else
    let filteredCounterIds :=
      filteredCounterIdsOf w.perfCounter (config.vm_counters ++ config.host_counters)
    if !w.foundHost then EnvResult.noneResult
    else if !w.foundVm then EnvResult.noneResult
    else
      let lookup_host :=
        w.availableHostMetrics w.histSamplingPeriod ++ w.availableHostMetrics 20
      let lookup_vm :=
        w.availableVmMetrics w.histSamplingPeriod ++ w.availableVmMetrics 20
      let host_counter_ids :=
        if config.host_counters.length = 0 then lookup_host
        else lookup_host.filter (fun m => decide (m.counterId ∈ filteredCounterIds))
      let vm_counter_ids :=
        if config.vm_counters.length = 0 then lookup_vm
        else lookup_vm.filter (fun m => decide (m.counterId ∈ filteredCounterIds))
      EnvResult.ok
        { host := config.host
          username := config.username
          password := config.password
          lookup_host := lookup_host
          lookup_vm := lookup_vm
          host_counter_ids := host_counter_ids
          vm_counter_ids := vm_counter_ids }

/-- Embeds `init_callback` (collectsphere.py:108-119): for every
configuration the build result is stored in the environment table under
the configuration name, whatever that result is.  The table is embedded as
an association list in insertion order. -/
def init_callback (configs : List Config) (w : String → VCWorld) :
    List (String × EnvResult) :=
  configs.map (fun c => (c.name, create_environment c (w c.name)))

/-- The Python exception raised when a stored non-dictionary build result
is subscripted. -/
inductive PyError where
  | typeError
deriving DecidableEq, Repr

/-- Embeds the environment walk of `read_callback`
(collectsphere.py:121-149).  For each stored entry the body immediately
evaluates `env["host"]` (line 132); when the stored value is the `None` or
`-1` of a failed build, that subscription raises `TypeError`, and no
handler exists in the function, so the walk aborts.  For a well-formed
environment the per-endpoint polling body is abstracted to recording the
endpoint name, since the claims about this function concern only error
propagation. -/
def read_callback : List (String × EnvResult) → Except PyError (List String)
  | [] => Except.ok []
  | (name, res) :: rest =>
    match res with
    | EnvResult.ok _ => (read_callback rest).map (fun visited => name :: visited)
    | _ => Except.error PyError.typeError

/-- A managed entity reference: display name and `_wsdlName` type tag. -/
structure Entity where
  name : String
  wsdlName : String
deriving DecidableEq, Repr

/-- The module constant `INTERVAL` (collectsphere.py:30). -/
def INTERVAL : Int := 60

/-- One `vim.PerformanceManager.QuerySpec` object as populated by
`colletMetricsForEntities` (collectsphere.py:155-169): counter-id list,
format, time window ends, sampling interval, and the entity reference,
which is unset until the per-entity loop assigns it. -/
structure QSpecCell where
  metricId : List MetricId
  format : String
  startTime : Int
  endTime : Int
  intervalId : Nat
  entity : Option Entity
deriving DecidableEq, Repr

/-- The single query-spec object after the field assignments of
collectsphere.py:155-169: window `[now - INTERVAL, now]` (the two
`datetime.datetime.today()` calls are embedded as the same instant `now`)
and the fixed real-time sampling interval 20. -/
def initQSpec (filteredMetricIds : List MetricId) (now : Int) : QSpecCell :=
  { metricId := filteredMetricIds
    format := "normal"
    startTime := now - INTERVAL
    endTime := now
    intervalId := 20
    entity := none }

/-- The state of the single query-spec object after the per-entity loop
(collectsphere.py:174-176) has run: each iteration overwrites the same
object's `entity` field. -/
def qSpecCellAfter (cell : QSpecCell) : List Entity → QSpecCell
  | [] => cell
  | e :: rest => qSpecCellAfter { cell with entity := some e } rest

/-- The query-spec list passed to `QueryPerf` (collectsphere.py:176, 181).
The source appends the same object once per entity, so the list the call
receives is `entities.length` references to the one cell in its final
state. -/
def colletQSpecs (mids : List MetricId) (now : Int) (entities : List Entity) :
    List QSpecCell :=
  List.replicate entities.length (qSpecCellAfter (initQSpec mids now) entities)

/-- One per-sample record of a `QueryPerf` result
(`sampleInfo[i]`): its timestamp, embedded as the epoch seconds that
`time.mktime(...timetuple())` yields for it. -/
structure PerfSample where
  timestamp : Int
deriving DecidableEq, Repr

/-- One per-counter series of a `QueryPerf` result entry: the metric
descriptor and the value list. -/
structure MetricSeries where
  id : MetricId
  value : List Int
deriving DecidableEq, Repr

/-- One entry of a `QueryPerf` result: the series list and the shared
sample-info list. -/
structure EntityMetrics where
  value : List MetricSeries
  sampleInfo : List PerfSample
deriving DecidableEq, Repr

/-- One `QueryPerfCounter` result record: name, group, unit and rollup
keys. -/
structure CounterInfo where
  nameKey : String
  groupKey : String
  unitKey : String
  rollupType : String
deriving DecidableEq, Repr

/-- One sample forwarded to the collectd sink by `cd_value.dispatch`
(collectsphere.py:239). -/
structure Dispatch where
  time : Int
  type_instance : String
  value : Int
deriving DecidableEq, Repr

/-- The world a poll of `colletMetricsForEntities` runs against: the
batched-query and counter-metadata calls of the performance manager, the
current instant, the value of `time.localtime().tm_isdst` at dispatch
time, and the oracle for the FQDN regular expression used by
`FQDNtruncate`. -/
structure PerfWorld where
  queryPerf : List QSpecCell → List EntityMetrics
  queryPerfCounter : List Nat → List CounterInfo
  now : Int
  tm_isdst : Int
  fqdnRegexAccepts : String → Bool

/-- Embeds `time.localtime().tm_isdst` as a function of a
daylight-saving-time predicate on instants. -/
def tm_isdstAt (isdst : Int → Bool) (t : Int) : Int :=
  if isdst t then 1 else 0

/-- Embeds the timestamp computation of collectsphere.py:214-215: the raw
epoch timestamp of the sample plus `tm_isdst * 3600`. -/
def sampleDispatchTime (raw : Int) (tmIsdst : Int) : Int :=
  raw + tmIsdst * 3600

/-- Embeds the innermost value loop of `colletMetricsForEntities`
(collectsphere.py:209-239).  The instance, unit, group and rollup strings
are loop-carried state, because the source reassigns those variables with
their truncated forms on every iteration.  Values are paired with their
sample infos (`metric.value[i]` with `sampleInfo[i]`). -/
def valueLoop (tmIsdst : Int) (cluster etype ename counter : String) :
    List (Int × PerfSample) → String × String × String × String → List Dispatch
  | [], _ => []
  | (v, si) :: rest, (inst0, unit0, grp0, roll0) =>
    let timestamp := sampleDispatchTime si.timestamp tmIsdst
    let inst1 := truncate inst0
    let inst2 := if inst1 = "" then "all" else inst1
    let unit1 := truncate unit0
    let grp1 := truncate grp0
    let roll1 := truncate roll0
    let sep := "."
    let key := cluster ++ sep ++ etype ++ sep ++ ename ++ sep ++ grp1 ++ sep ++
      inst2 ++ sep ++ roll1 ++ sep ++ counter ++ sep ++ unit1
    let spacePat := " ".data
    let underscoreRep := "_".data
    let keyU := String.mk (listReplace spacePat underscoreRep key.data)
    { time := timestamp, type_instance := keyU, value := v } ::
      valueLoop tmIsdst cluster etype ename counter rest (inst2, unit1, grp1, roll1)

/-- Embeds the per-metric loop of `colletMetricsForEntities`
(collectsphere.py:198-239): each series is paired with its
`QueryPerfCounter` info record, and the loop-carried strings are
re-initialised from that record (collectsphere.py:202-206). -/
def metricLoop (tmIsdst : Int) (cluster etype ename : String)
    (sampleInfo : List PerfSample) :
    List (MetricSeries × CounterInfo) → List Dispatch
  | [] => []
  | (metric, info) :: rest =>
    valueLoop tmIsdst cluster etype ename info.nameKey
        (metric.value.zip sampleInfo)
        (metric.id.inst, info.unitKey, info.groupKey, info.rollupType) ++
      metricLoop tmIsdst cluster etype ename sampleInfo rest

/-- Fallback entity for the source's `entities[p]` indexing
(collectsphere.py:233-234), which indexes the original entity list with
the result position. -/
def defaultEntity : Entity :=
  { name := "", wsdlName := "" }

/-- Embeds the per-result-entry loop of `colletMetricsForEntities`
(collectsphere.py:187-239): for entry `p`, the counter infos for its
series are fetched with one `QueryPerfCounter` call, and the entity name
and type abbreviation come from `entities[p]` (the source computes them
inside the value loop, but they are pure and loop-invariant). -/
def colletDispatches (w : PerfWorld) (entities : List Entity)
    (cluster_name : String) (results : List EntityMetrics) : List Dispatch :=
  (results.enum.map (fun pe =>
    let em := pe.snd
    let queriedIds := em.value.map (fun m => m.id.counterId)
    let infos := w.queryPerfCounter queriedIds
    let ent := entities.getD pe.fst defaultEntity
    let ename := FQDNtruncate w.fqdnRegexAccepts ent.name
    let etype := Objtruncate ent.wsdlName
    metricLoop w.tm_isdst cluster_name etype ename em.sampleInfo
      (em.value.zip infos))).flatten

/-- Embeds `colletMetricsForEntities` (collectsphere.py:151-239) as the
pair of the issued `QueryPerf` calls (each with its query-spec list) and
the dispatched samples.  With an empty entity list the source returns
before issuing any query (lines 172-173); otherwise exactly one batched
call is issued with the aliased spec list of `colletQSpecs`. -/
def colletMetricsForEntities (w : PerfWorld) (filteredMetricIds : List MetricId)
    (entities : List Entity) (cluster_name : String) :
    List (List QSpecCell) × List Dispatch :=
  if entities.length = 0 then ([], [])
  else
    let qSpecs := colletQSpecs filteredMetricIds w.now entities
    let results := w.queryPerf qSpecs
    ([qSpecs], colletDispatches w entities cluster_name results)

/-- The codepoint of a `Char.ofNat` below the surrogate range is the given
number. -/
theorem char_toNat_ofNat_of_lt {n : Nat} (h : n < 55296) : (Char.ofNat n).toNat = n := by
  have hv : Nat.isValidChar n := Or.inl h
  rw [Char.ofNat, dif_pos hv]
  simp [Char.ofNatAux, Char.toNat, UInt32.toNat, BitVec.toNat_ofNatLt]

/-- Lower-casing never yields an upper-case letter, in particular not the
letter the source's `startswith('ATA')` test looks for. -/
theorem toLower_ne_upperA (c : Char) : Char.toLower c ≠ 'A' := by
  intro h
  have hA : Char.toNat 'A' = 65 := by decide
  simp only [Char.toLower] at h
  split at h
  next hn =>
    have h2 := congrArg Char.toNat h
    rw [char_toNat_ofNat_of_lt (by omega)] at h2
    omega
  next hn =>
    subst h
    exact hn (by decide)

/-- A lower-cased string never starts with the three characters `ATA`, so
the ATA branch of the device-identifier rule is unreachable. -/
theorem lowerL_take3_ne_ATA (l : List Char) : ¬ (lowerL l).take 3 = ['A', 'T', 'A'] := by
  intro h
  cases l with
  | nil => simp [lowerL] at h
  | cons a t =>
    simp [lowerL] at h
    exact toLower_ne_upperA a h.1

/-- On any matching input the device-identifier rule takes the non-ATA
branch: the lower-cased id type followed by the last 12 characters of the
lower-cased identifier. -/
theorem deviceIdRuleL_of_match (s idType g2 : List Char)
    (h : naaT10Match s = some (idType, g2)) :
    deviceIdRuleL s = idType ++ lastN 12 (lowerL g2) := by
  unfold deviceIdRuleL
  rw [h]
  exact if_neg (lowerL_take3_ne_ATA g2)

/-- A successful `naaT10Match` yields one of the two lower-cased id types
and a non-empty identifier group. -/
theorem naaT10Match_shape (s idType g2 : List Char)
    (h : naaT10Match s = some (idType, g2)) :
    (idType = ['n', 'a', 'a'] ∨ idType = ['t', '1', '0']) ∧ g2 ≠ [] := by
  unfold naaT10Match at h
  split at h
  next t1 t2 t3 t4 rest =>
    split at h
    next hcond =>
      dsimp only at h
      split at h
      next => exact absurd h (by simp)
      next hg =>
        rw [Option.some.injEq, Prod.mk.injEq] at h
        constructor
        · rw [h.1] at hcond
          exact hcond.1
        · rw [h.2] at hg
          exact hg
    next => exact absurd h (by simp)
  next => exact absurd h (by simp)

/-- The last `n` characters of a non-empty list form a non-empty list when
`n` is positive. -/
theorem lastN_ne_nil {n : Nat} {l : List Char} (h : l ≠ []) (hn : 0 < n) :
    lastN n l ≠ [] := by
  unfold lastN
  intro hd
  rw [List.drop_eq_nil_iff] at hd
  have := Nat.sub_lt (List.length_pos.mpr h) hn
  omega

/-- The device-identifier rule's output fails to re-match the NAA/T10
pattern when the character after the id type is not a dot. -/
theorem naaT10Match_out_none (idType rest' : List Char) (c : Char)
    (hid : idType = ['n', 'a', 'a'] ∨ idType = ['t', '1', '0'])
    (hc : c ≠ '.') :
    naaT10Match (idType ++ c :: rest') = none := by
  rcases hid with h | h <;> subst h <;> simp [naaT10Match, hc]

/-- An ATA-style canonical name, as the specification's ATA clause
describes. -/
def c5Input : String := "t10.ATA_____Model___Serial___"

/-- What the specification's ATA clause would produce for `c5Input`: the
two underscore-delimited groups after `ATA`, concatenated (lower-cased,
since the identifier was lower-cased first). -/
def c5SpecExpected : String := "modelserial"

/-- What the code produces for `c5Input`: the lower-cased id type followed
by the last 12 characters of the lower-cased identifier, because the
ATA branch is never taken. -/
def c5CodeOutput : String := "t10___serial___"

/-- Claim C5: on an ATA-style input the device-identifier rule does not
extract and concatenate the model and serial groups; it takes the
ordinary last-12-characters branch, because `startswith('ATA')` is tested
on the already lower-cased identifier (and the ATA branch would not write
back to the string even if taken).  This theorem evaluates the rule and
the whole normalizer at the failing input. -/
theorem c5_ata_branch_dead :
    deviceIdRule c5Input = c5CodeOutput ∧
    truncate c5Input = c5CodeOutput ∧
    deviceIdRule c5Input ≠ c5SpecExpected := by decide

/-- The round-trip example input of the specification. -/
def c6Input : String := "naa.6000c29012345678deadbeefcafef00d"

/-- The identifier part of `c6Input` (after the `naa.` prefix). -/
def c6IdPart : String := "6000c29012345678deadbeefcafef00d"

/-- The output the specification's round-trip example states. -/
def c6SpecOutput : String := "naaefcafef00d"

/-- The output the code actually produces for `c6Input`. -/
def c6CodeOutput : String := "naabeefcafef00d"

/-- The lower-cased id-type literal. -/
def naaLit : String := "naa"

/-- Claim C6 counterexample: the normalizer applied to the example input
does not return the literal the specification states; that literal
carries only the last 10 characters of the identifier, not the last
12. -/
theorem c6_roundtrip_counterexample :
    truncate c6Input ≠ c6SpecOutput := by decide

/-- Claim C6 (amended): the normalizer applied to the example input
returns `naa` followed by the last 12 characters of the identifier, which
is `naabeefcafef00d`. -/
theorem c6_roundtrip_amended :
    truncate c6Input = c6CodeOutput ∧
    c6CodeOutput.data = naaLit.data ++ lastN 12 c6IdPart.data := by decide

/-- An input whose identifier's last-12-character window starts with a
dot, so the device-identifier rule's output matches the NAA/T10 pattern
again. -/
def c8Input : String := "naa.X.12345678901"

/-- Claim C8 counterexample: the rule's output for `c8Input` still
matches the NAA/T10 pattern, and applying the rule a second time changes
it, so the rule is not idempotent on its own output. -/
theorem c8_idempotence_counterexample :
    (naaT10Match (deviceIdRule c8Input).data).isSome = true ∧
    deviceIdRule (deviceIdRule c8Input) ≠ deviceIdRule c8Input := by decide

/-- Claim C8 (amended): for an input matching the NAA/T10 pattern, as
long as the last-12-character window of the lower-cased identifier does
not start with a dot, the rule's output no longer matches the pattern and
a second application leaves it unchanged. -/
theorem c8_second_application_noop (s : String) (idType g2 : List Char)
    (hm : naaT10Match s.data = some (idType, g2))
    (hdot : (lastN 12 (lowerL g2)).head? ≠ some '.') :
    naaT10Match (deviceIdRule s).data = none ∧
    deviceIdRule (deviceIdRule s) = deviceIdRule s := by
  obtain ⟨hid, hg2⟩ := naaT10Match_shape _ _ _ hm
  have hrule : deviceIdRuleL s.data = idType ++ lastN 12 (lowerL g2) :=
    deviceIdRuleL_of_match _ _ _ hm
  have hlnn : lowerL g2 ≠ [] := by
    intro hz
    exact hg2 (List.map_eq_nil_iff.mp hz)
  have hne : lastN 12 (lowerL g2) ≠ [] := lastN_ne_nil hlnn (by omega)
  cases hl : lastN 12 (lowerL g2) with
  | nil => exact absurd hl hne
  | cons c rest' =>
    have hc : c ≠ '.' := by
      intro hcd
      rw [hl, hcd] at hdot
      exact hdot rfl
    have hdata : (deviceIdRule s).data = idType ++ c :: rest' := by
      simp [deviceIdRule, hrule, hl]
    have hnone : naaT10Match (deviceIdRule s).data = none := by
      rw [hdata]
      exact naaT10Match_out_none _ _ _ hid hc
    refine ⟨hnone, ?_⟩
    show String.mk (deviceIdRuleL (deviceIdRule s).data) = deviceIdRule s
    unfold deviceIdRuleL
    rw [hnone]

/-- A matching input for the witness of the amended C8 theorem. -/
def c8WitnessInput : String := "t10.abcdef"

/-- The identifier group of `c8WitnessInput`. -/
def c8WitnessId : String := "abcdef"

/-- Witness for the amended C8 theorem at a concrete input. -/
theorem c8_second_application_noop_witness :
    naaT10Match c8WitnessInput.data = some (['t', '1', '0'], c8WitnessId.data) ∧
    (lastN 12 (lowerL c8WitnessId.data)).head? ≠ some '.' ∧
    (naaT10Match (deviceIdRule c8WitnessInput).data = none ∧
      deviceIdRule (deviceIdRule c8WitnessInput) = deviceIdRule c8WitnessInput) :=
  ⟨by decide, by decide,
    c8_second_application_noop c8WitnessInput (['t', '1', '0']) c8WitnessId.data
      (by decide) (by decide)⟩

/-- Claim C9: with an empty entity list the batcher returns immediately:
no `QueryPerf` call is issued and no sample is dispatched. -/
theorem c9_empty_entities_noop (w : PerfWorld) (mids : List MetricId)
    (cname : String) :
    colletMetricsForEntities w mids [] cname = ([], []) := rfl

/-- First entity of the C1 failing input. -/
def e1C1 : Entity := { name := "host1", wsdlName := "HostSystem" }

/-- Second entity of the C1 failing input. -/
def e2C1 : Entity := { name := "host2", wsdlName := "HostSystem" }

/-- A counter descriptor for the C1 failing input. -/
def midC1 : MetricId := { counterId := 2, inst := "" }

/-- A world for the C1 failing input; its query results are irrelevant to
the queries issued. -/
def wC1 : PerfWorld :=
  { queryPerf := fun _ => []
    queryPerfCounter := fun _ => []
    now := 1000
    tm_isdst := 0
    fqdnRegexAccepts := fun _ => false }

/-- Cluster name of the C1 failing input. -/
def clusterC1 : String := "cluster1"

/-- Claim C1: with two distinct entities exactly one batched `QueryPerf`
call is issued and its spec list has one entry per entity sharing counter
list, window and interval — but, because the source appends the same
mutated `QuerySpec` object each iteration, both entries are the same spec
referencing the second (last) entity, so the first specification does not
reference the first entity. -/
theorem c1_aliased_qspecs :
    (colletMetricsForEntities wC1 [midC1] [e1C1, e2C1] clusterC1).fst =
      [[{ metricId := [midC1], format := "normal", startTime := 940,
          endTime := 1000, intervalId := 20, entity := some e2C1 },
        { metricId := [midC1], format := "normal", startTime := 940,
          endTime := 1000, intervalId := 20, entity := some e2C1 }]] ∧
    e1C1 ≠ e2C1 := by decide

/-- A daylight-saving-time predicate under which DST is active at the
sample's moment but not at dispatch time. -/
def isdstC7 : Int → Bool := fun t => decide (t < 1500)

/-- Claim C7 counterexample: a sample whose raw timestamp 1000 falls at a
moment when DST is active is dispatched unshifted when DST is not in
effect at dispatch time (instant 2000), because the source adds
`time.localtime().tm_isdst * 3600`, which consults the current local
time, not the sample's moment. -/
theorem c7_sample_moment_counterexample :
    isdstC7 1000 = true ∧
    sampleDispatchTime 1000 (tm_isdstAt isdstC7 2000) ≠ 1000 + 3600 := by decide

/-- Claim C7 (amended): when DST is in effect at dispatch time, every
dispatched timestamp equals the raw control-plane sample timestamp plus
exactly 3600 seconds. -/
theorem c7_dst_at_dispatch_time (isdst : Int → Bool) (raw t : Int)
    (h : isdst t = true) :
    sampleDispatchTime raw (tm_isdstAt isdst t) = raw + 3600 := by
  simp [sampleDispatchTime, tm_isdstAt, h]

/-- Witness for the amended C7 theorem at a concrete instant. -/
theorem c7_dst_at_dispatch_time_witness :
    isdstC7 999 = true ∧
    sampleDispatchTime 500 (tm_isdstAt isdstC7 999) = 500 + 3600 :=
  ⟨by decide, c7_dst_at_dispatch_time isdstC7 500 999 (by decide)⟩

/-- The literal configuration value selecting all counters. -/
def allLit : String := "all"

/-- Claim C4: the configuration value `all` parses to the empty
counter-name list, and for every successfully built environment an empty
filter list for a scope makes that scope's allow-list the whole
discovered descriptor list, unfiltered. -/
theorem c4_empty_filter_selects_all (cfg : Config) (w : VCWorld) (env : Env)
    (hok : create_environment cfg w = EnvResult.ok env) :
    parseCounterNames allLit = [] ∧
    (cfg.host_counters = [] → env.host_counter_ids = env.lookup_host) ∧
    (cfg.vm_counters = [] → env.vm_counter_ids = env.lookup_vm) := by
  refine ⟨by decide, ?_, ?_⟩ <;>
    · unfold create_environment at hok
      split at hok
      next => exact absurd hok (by simp)
      next =>
        split at hok
        next => exact absurd hok (by simp)
        next =>
          split at hok
          next => exact absurd hok (by simp)
          next =>
            rw [EnvResult.ok.injEq] at hok
            subst hok
            intro hempty
            simp [hempty]

/-- A world for the witness environments: two discoverable host
descriptors (one per discovery period) and no VM descriptors. -/
def wAllW : VCWorld :=
  { connectOk := true
    perfCounter := []
    foundHost := true
    foundVm := true
    histSamplingPeriod := 300
    availableHostMetrics := fun _ => [{ counterId := 7, inst := "" }]
    availableVmMetrics := fun _ => [] }

/-- A configuration whose two counter lists are empty, the host one via
the literal `all`. -/
def cfgAllW : Config :=
  { name := "vc"
    host := "h"
    port := 443
    verbose := false
    username := "root"
    password := "pw"
    host_counters := parseCounterNames allLit
    vm_counters := []
    inventory_refresh_interval := 600 }

/-- The environment `create_environment` builds from `cfgAllW` and
`wAllW`. -/
def envAllW : Env :=
  { host := "h"
    username := "root"
    password := "pw"
    lookup_host := [{ counterId := 7, inst := "" }, { counterId := 7, inst := "" }]
    lookup_vm := []
    host_counter_ids := [{ counterId := 7, inst := "" }, { counterId := 7, inst := "" }]
    vm_counter_ids := [] }

/-- Witness for the C4 theorem at a concrete configuration and world. -/
theorem c4_empty_filter_selects_all_witness :
    create_environment cfgAllW wAllW = EnvResult.ok envAllW ∧
    (parseCounterNames allLit = [] ∧
      (cfgAllW.host_counters = [] → envAllW.host_counter_ids = envAllW.lookup_host) ∧
      (cfgAllW.vm_counters = [] → envAllW.vm_counter_ids = envAllW.lookup_vm)) :=
  ⟨by decide, c4_empty_filter_selects_all cfgAllW wAllW envAllW (by decide)⟩

/-- Claim C10: in every successfully built environment, every descriptor
of the host allow-list is a member of the discovered `lookup_host` list
and every descriptor of the VM allow-list is a member of the discovered
`lookup_vm` list, whatever the configured filter lists are. -/
theorem c10_allowlists_within_lookup (cfg : Config) (w : VCWorld) (env : Env)
    (d e : MetricId) (hok : create_environment cfg w = EnvResult.ok env) :
    (d ∈ env.host_counter_ids → d ∈ env.lookup_host) ∧
    (e ∈ env.vm_counter_ids → e ∈ env.lookup_vm) := by
  unfold create_environment at hok
  split at hok
  next => exact absurd hok (by simp)
  next =>
    split at hok
    next => exact absurd hok (by simp)
    next =>
      split at hok
      next => exact absurd hok (by simp)
      next =>
        rw [EnvResult.ok.injEq] at hok
        subst hok
        constructor <;>
          · intro hmem
            simp only at hmem ⊢
            split at hmem
            next => exact hmem
            next => exact (List.mem_filter.mp hmem).1

/-- Witness for the C10 theorem at a concrete configuration and world. -/
theorem c10_allowlists_within_lookup_witness :
    (({ counterId := 7, inst := "" } : MetricId) ∈ envAllW.host_counter_ids →
      ({ counterId := 7, inst := "" } : MetricId) ∈ envAllW.lookup_host) ∧
    (({ counterId := 7, inst := "" } : MetricId) ∈ envAllW.vm_counter_ids →
      ({ counterId := 7, inst := "" } : MetricId) ∈ envAllW.lookup_vm) :=
  c10_allowlists_within_lookup cfgAllW wAllW envAllW
    { counterId := 7, inst := "" } { counterId := 7, inst := "" } (by decide)

/-- Membership in the resolved counter-id list: an id is resolved exactly
when some catalog counter with that id has its `group.name` string in the
given name list. -/
theorem mem_filteredCounterIdsOf (catalog : List PerfCounter)
    (names : List String) (n : Nat) :
    n ∈ filteredCounterIdsOf catalog names ↔
      ∃ pc ∈ catalog, pc.key = n ∧ groupDotName pc ∈ names := by
  simp only [filteredCounterIdsOf, List.mem_map, List.mem_filter,
    decide_eq_true_eq]
  constructor
  · rintro ⟨pc, ⟨hpc, hname⟩, hkey⟩
    exact ⟨pc, hpc, hkey, hname⟩
  · rintro ⟨pc, hpc, hkey, hname⟩
    exact ⟨pc, ⟨hpc, hname⟩, hkey⟩

/-- The filter list name of the C3 counterexample's host scope. -/
def cpuUsageLit : String := "cpu.usage"

/-- The filter list name of the C3 counterexample's vm scope. -/
def memUsageLit : String := "mem.usage"

/-- The host descriptor of the C3 counterexample; its counter id resolves
to the vm-scope name. -/
def mdC3 : MetricId := { counterId := 2, inst := "" }

/-- Configuration of the C3 counterexample: disjoint host and vm filter
lists. -/
def cfgC3 : Config :=
  { name := "vc"
    host := "h"
    port := 443
    verbose := false
    username := "root"
    password := "pw"
    host_counters := [cpuUsageLit]
    vm_counters := [memUsageLit]
    inventory_refresh_interval := 600 }

/-- World of the C3 counterexample: catalog with counters 1 = cpu.usage
and 2 = mem.usage; the probe host discovers only the descriptor of
counter 2 (at the real-time period). -/
def wC3 : VCWorld :=
  { connectOk := true
    perfCounter :=
      [{ key := 1, groupKey := "cpu", nameKey := "usage" },
       { key := 2, groupKey := "mem", nameKey := "usage" }]
    foundHost := true
    foundVm := true
    histSamplingPeriod := 300
    availableHostMetrics := fun p => if p = 20 then [mdC3] else []
    availableVmMetrics := fun _ => [] }

/-- The environment `create_environment` builds from `cfgC3` and `wC3`. -/
def envC3 : Env :=
  { host := "h"
    username := "root"
    password := "pw"
    lookup_host := [mdC3]
    lookup_vm := []
    host_counter_ids := [mdC3]
    vm_counter_ids := [] }

/-- Claim C3 counterexample: with a non-empty host filter list, the host
allow-list contains a descriptor whose counter id resolves only to a name
outside the host scope's own filter list (it is in the vm list), because
the source filters against the concatenated vm+host list. -/
theorem c3_scope_filter_counterexample :
    cfgC3.host_counters ≠ [] ∧
    create_environment cfgC3 wC3 = EnvResult.ok envC3 ∧
    mdC3 ∈ envC3.host_counter_ids ∧
    ¬ ∃ pc ∈ wC3.perfCounter, pc.key = mdC3.counterId ∧
        groupDotName pc ∈ cfgC3.host_counters := by decide

/-- Claim C3 (amended): for every successfully built environment and
non-empty scope filter list, a descriptor is in that scope's allow-list
exactly when it was discovered for that scope and its counter id resolves
to a catalog name in the concatenation of the vm and host filter lists
(the source's single combined filter). -/
theorem c3_combined_filter (cfg : Config) (w : VCWorld) (env : Env)
    (d : MetricId) (hok : create_environment cfg w = EnvResult.ok env) :
    (cfg.host_counters ≠ [] →
      (d ∈ env.host_counter_ids ↔ d ∈ env.lookup_host ∧
        ∃ pc ∈ w.perfCounter, pc.key = d.counterId ∧
          groupDotName pc ∈ cfg.vm_counters ++ cfg.host_counters)) ∧
    (cfg.vm_counters ≠ [] →
      (d ∈ env.vm_counter_ids ↔ d ∈ env.lookup_vm ∧
        ∃ pc ∈ w.perfCounter, pc.key = d.counterId ∧
          groupDotName pc ∈ cfg.vm_counters ++ cfg.host_counters)) := by
  unfold create_environment at hok
  split at hok
  next => exact absurd hok (by simp)
  next =>
    split at hok
    next => exact absurd hok (by simp)
    next =>
      split at hok
      next => exact absurd hok (by simp)
      next =>
        rw [EnvResult.ok.injEq] at hok
        subst hok
        constructor <;>
          · intro hne
            have hlen : ¬ _ = 0 := fun hz => hne (List.length_eq_zero.mp hz)
            simp only [hlen, if_false]
            rw [List.mem_filter]
            simp only [decide_eq_true_eq]
            rw [mem_filteredCounterIdsOf]

/-- Witness for the amended C3 theorem at a concrete configuration and
world. -/
theorem c3_combined_filter_witness :
    (cfgC3.host_counters ≠ [] →
      (mdC3 ∈ envC3.host_counter_ids ↔ mdC3 ∈ envC3.lookup_host ∧
        ∃ pc ∈ wC3.perfCounter, pc.key = mdC3.counterId ∧
          groupDotName pc ∈ cfgC3.vm_counters ++ cfgC3.host_counters)) ∧
    (cfgC3.vm_counters ≠ [] →
      (mdC3 ∈ envC3.vm_counter_ids ↔ mdC3 ∈ envC3.lookup_vm ∧
        ∃ pc ∈ wC3.perfCounter, pc.key = mdC3.counterId ∧
          groupDotName pc ∈ cfgC3.vm_counters ++ cfgC3.host_counters)) :=
  c3_combined_filter cfgC3 wC3 envC3 mdC3 (by decide)

/-- Name of the failing endpoint of the C2 failing input. -/
def vcALit : String := "vcA"

/-- Name of the healthy endpoint of the C2 failing input. -/
def vcBLit : String := "vcB"

/-- The configuration of the failing endpoint. -/
def cfgBadC2 : Config :=
  { name := "vcA"
    host := "hA"
    port := 443
    verbose := false
    username := "root"
    password := "pw"
    host_counters := []
    vm_counters := []
    inventory_refresh_interval := 600 }

/-- The configuration of the healthy endpoint. -/
def cfgGoodC2 : Config :=
  { name := "vcB"
    host := "hB"
    port := 443
    verbose := false
    username := "root"
    password := "pw"
    host_counters := []
    vm_counters := []
    inventory_refresh_interval := 600 }

/-- World of the failing endpoint: connection succeeds but the inventory
contains no powered-on virtual machine. -/
def wBadC2 : VCWorld :=
  { connectOk := true
    perfCounter := []
    foundHost := true
    foundVm := false
    histSamplingPeriod := 300
    availableHostMetrics := fun _ => []
    availableVmMetrics := fun _ => [] }

/-- World of the healthy endpoint. -/
def wGoodC2 : VCWorld :=
  { connectOk := true
    perfCounter := []
    foundHost := true
    foundVm := true
    histSamplingPeriod := 300
    availableHostMetrics := fun _ => []
    availableVmMetrics := fun _ => [] }

/-- Per-endpoint world assignment of the C2 failing input. -/
def wMapC2 : String → VCWorld :=
  fun n => if n = vcALit then wBadC2 else wGoodC2

/-- Claim C2: when one endpoint's environment build fails (here: no
powered-on VM, so `create_environment` returns its `None`), the endpoint
is not excluded — `init_callback` stores the failed result under the
endpoint's name anyway — and the next `read_callback` cycle raises
`TypeError` when it subscripts that stored value, aborting the cycle
instead of completing for the remaining healthy endpoint. -/
theorem c2_failed_build_aborts_cycle :
    create_environment cfgBadC2 wBadC2 = EnvResult.noneResult ∧
    (init_callback [cfgBadC2, cfgGoodC2] wMapC2).map Prod.fst = [vcALit, vcBLit] ∧
    read_callback (init_callback [cfgBadC2, cfgGoodC2] wMapC2) =
      Except.error PyError.typeError :=
  ⟨rfl, rfl, rfl⟩
